import Mathlib

/-!
Verification of the rekog-labeler pipeline (src/app.py) against its
natural-language specification.

The program is a linear pipeline: ensure_bucket → upload_folder_to_s3 →
list_s3_images → bulk_detect_and_save (driving detect_labels_for_s3_object)
→ generate_html_report.  The two remote services (S3 storage, Rekognition
labeling) are opaque; we model each remote call by its observable
request/outcome.  File-system side effects (directory creation, CSV/JSON
writes) and the inter-call sleep are recorded in an explicit event trace.
Machine floats in the source are modelled as rationals; Python round(x, 2)
is round-half-to-even, modelled on the rationals below.
-/

namespace RekogLabeler

/-- Python str.lower restricted to the ASCII range, which is all the
source ever lowercases (file extensions). -/
def lowerStr (s : String) : String := String.mk (s.data.map Char.toLower)

/-- Index of the last occurrence of a character in a list, if any. -/
def lastIndexOf (c : Char) : List Char → Option Nat
  | [] => none
  | a :: as =>
    match lastIndexOf c as with
    | some i => some (i + 1)
    | none => if a = c then some 0 else none

/-- The extension component of os.path.splitext(p) under POSIX rules
(the host OS of the source): the suffix from the last dot of the final
path component, except that a final component consisting only of leading
dots up to that dot has no extension. -/
def splitextExt (p : String) : String :=
  let cs := p.data
  match lastIndexOf '.' cs with
  | none => ""
  | some dot =>
    let fs := match lastIndexOf '/' cs with
      | some s => s + 1
      | none => 0
    if dot < fs then ""
    else if ((cs.take dot).drop fs).all (fun a => a == '.') then ""
    else String.mk (cs.drop dot)

/-- Model of os.path.basename under POSIX rules: everything after the last slash. -/
def basename (p : String) : String :=
  match lastIndexOf '/' p.data with
  | none => p
  | some s => String.mk (p.data.drop (s + 1))

/-- The IMAGE_EXTS set from src/app.py line 8. -/
def IMAGE_EXTS : List String := [".jpg", ".jpeg", ".png"]

/-- Model of os.path.splitext(p)[1].lower(), the extension test used by the
uploader (on the bare filename) and the lister (on the full key). -/
def extLower (p : String) : String := lowerStr (splitextExt p)

/-- Model of posixpath.join for two components, as os.path.join behaves on the
POSIX host: an absolute second component wins; otherwise a separator is
inserted unless the first component is empty or already ends in one. -/
def posixJoin (a b : String) : String :=
  if b.data.head? = some '/' then b
  else if a.data = [] ∨ a.data.getLast? = some '/' then a ++ b
  else a ++ "/" ++ b

/-- Python .replace of the single character backslash by forward slash
(src/app.py line 54). -/
def replaceBackslash (s : String) : String :=
  String.mk (s.data.map (fun c => if c = '\\' then '/' else c))

/-- Outcome of the storage service's create_bucket call as ensure_bucket
observes it: either success or a ClientError carrying an error code. -/
inductive CreateBucketOutcome where
  | success
  | clientError (code : String)
deriving DecidableEq

/-- Model of ensure_bucket (src/app.py lines 21-38), reduced to its control-flow
decision: given the outcome of create_bucket, does the run proceed
(true) or call sys.exit(1) (false)?  The source proceeds on success and
on ClientError codes BucketAlreadyOwnedByYou and BucketAlreadyExists. -/
def ensure_bucket : CreateBucketOutcome → Bool
  | CreateBucketOutcome.success => true
  | CreateBucketOutcome.clientError code =>
      code == "BucketAlreadyOwnedByYou" || code == "BucketAlreadyExists"

/-- Observable outcome of upload_folder_to_s3 on an existing directory.
uploadedFiles are the relative paths (from the folder root) of the files
passed to upload_file, in traversal order; uploadedKeys the S3 keys they
are stored under; uploaded the final counter; fatal whether the zero-match
sys.exit(1) at line 58-60 fires; retval the Python return value of the
function, which has no return statement and therefore returns None. -/
structure UploadOutcome where
  uploadedFiles : List String
  uploadedKeys : List String
  uploaded : Nat
  fatal : Bool
  retval : Option Nat
deriving DecidableEq

/-- Model of upload_folder_to_s3 (src/app.py lines 40-61).  The os.walk traversal
of the existing source directory is abstracted as the list of file paths
relative to the folder root, in traversal order (the lines 42-45
missing-directory exit is a precondition here, not modelled).  For each
file the bare filename's lowercased splitext extension is tested against
IMAGE_EXTS; matching files are uploaded under
os.path.join(pfx, relpath).replace(backslash, slash). -/
def upload_folder_to_s3 (files : List String) ( _bucket : String) (pfx : String) :
    UploadOutcome :=
  let matching := files.filter (fun rel => IMAGE_EXTS.contains (extLower (basename rel)))
  let keys := matching.map (fun rel => replaceBackslash (posixJoin pfx rel))
  ⟨matching, keys, keys.length, keys.length == 0, none⟩

/-- Model of list_s3_images (src/app.py lines 63-77).  The paginated listing is
abstracted as the pages of object keys the service returns, in order.
Keys whose lowercased splitext extension is in IMAGE_EXTS are kept; an
empty filtered result is fatal (sys.exit(1), modelled as error 1). -/
def list_s3_images (pages : List (List String)) : Except Nat (List String) :=
  let keys := (pages.flatten).filter (fun key => IMAGE_EXTS.contains (extLower key))
  if keys.isEmpty then Except.error 1 else Except.ok keys

/-- Python round-half-to-even (the semantics of the built-in round) on
the rationals, standing in for the float confidences of the source. -/
def roundHalfEven (q : ℚ) : ℤ :=
  let f := ⌊q⌋
  let r := q - f
  if r < 1 / 2 then f
  else if r > 1 / 2 then f + 1
  else if f % 2 = 0 then f else f + 1

/-- Python round(x, 2) from src/app.py line 92: round to two decimal places. -/
def round2 (q : ℚ) : ℚ := ((roundHalfEven (100 * q) : ℤ) : ℚ) / 100

/-- One parent object from the Rekognition response (an element of
lab.get("Parents", []) with its "Name" field). -/
structure RawParent where
  Name : String
deriving DecidableEq

/-- One label object of the Rekognition response: "Name", "Confidence"
(a float in 0-100, modelled rational), and "Parents" (absent modelled as
the empty list, matching the .get default). -/
structure RawLabel where
  Name : String
  Confidence : ℚ
  Parents : List RawParent
deriving DecidableEq

/-- A detect_labels response: its "Labels" list (absent modelled as
empty, matching resp.get("Labels", [])). -/
structure RekogResponse where
  Labels : List RawLabel
deriving DecidableEq

/-- An opaque botocore ClientError raised by the labeling call. -/
structure ClientError where
  msg : String
deriving DecidableEq

/-- The request detect_labels_for_s3_object issues (src/app.py lines
82-86): S3Object bucket and key, MaxLabels, MinConfidence. -/
structure DetectRequest where
  bucket : String
  key : String
  maxLabels : Nat
  minConf : ℚ
deriving DecidableEq

/-- A normalized label of the output data model. -/
structure Label where
  name : String
  confidence : ℚ
  parents : List String
deriving DecidableEq

/-- A normalized per-image result of the output data model. -/
structure LabelResult where
  image : String
  labels : List Label
deriving DecidableEq

/-- The image URI written to every output record (src/app.py line 88). -/
def s3uri (bucket key : String) : String := "s3://" ++ bucket ++ "/" ++ key

/-- The pure normalization step of detect_labels_for_s3_object
(src/app.py lines 87-97) applied to a response. -/
def mkLabelResult (bucket key : String) (resp : RekogResponse) : LabelResult :=
  ⟨s3uri bucket key,
   resp.Labels.map (fun lab =>
     ⟨lab.Name, round2 lab.Confidence, lab.Parents.map (fun p => p.Name)⟩)⟩

/-- Model of detect_labels_for_s3_object (src/app.py lines 79-97): one call to
the labeling service, modelled by the oracle svc; on success the
response is normalized, an error propagates to the caller. -/
def detect_labels_for_s3_object (svc : DetectRequest → Except ClientError RekogResponse)
    (bucket key : String) (max_labels : Nat) (min_conf : ℚ) :
    Except ClientError LabelResult :=
  match svc ⟨bucket, key, max_labels, min_conf⟩ with
  | Except.error e => Except.error e
  | Except.ok resp => Except.ok (mkLabelResult bucket key resp)

/-- One data row of labels.csv (src/app.py lines 116-118); the header
row is recorded in the event trace instead. -/
structure CsvRow where
  image : String
  label : String
  confidence : ℚ
  parents : String
deriving DecidableEq

/-- The row written for one label of one result: image URI, name,
confidence, parents joined with ";". -/
def mkRow (image : String) (lab : Label) : CsvRow :=
  ⟨image, lab.name, lab.confidence, String.intercalate ";" lab.parents⟩

/-- Observable events of bulk_detect_and_save, in program order:
os.makedirs of the output directory, the CSV header write, each
detect_labels call (with its key), each time.sleep(0.1), and the final
JSON dump. -/
inductive Event where
  | mkdirOut
  | csvHeader
  | call (key : String)
  | sleep100
  | jsonWrite
deriving DecidableEq

/-- What a run of bulk_detect_and_save produces: the results list that
becomes labels.json, the data rows of labels.csv, and the event trace. -/
structure BulkOutput where
  results : List LabelResult
  csvRows : List CsvRow
  trace : List Event
deriving DecidableEq

/-- Whether the detect call for a key succeeds under the oracle. -/
def succeeded (svc : DetectRequest → Except ClientError RekogResponse)
    (bucket : String) (ml : Nat) (mc : ℚ) (key : String) : Bool :=
  match svc ⟨bucket, key, ml, mc⟩ with
  | Except.ok _ => true
  | Except.error _ => false

/-- The per-key loop of bulk_detect_and_save (src/app.py lines 111-122):
on success the result is appended, its rows written, and the 100ms sleep
runs; on ClientError only the failure is logged and the loop continues.
The sleep sits inside the try block, after the success path. -/
def bulkGo (svc : DetectRequest → Except ClientError RekogResponse)
    (bucket : String) (ml : Nat) (mc : ℚ) : List String → BulkOutput
  | [] => ⟨[], [], []⟩
  | key :: rest =>
    let tail := bulkGo svc bucket ml mc rest
    match detect_labels_for_s3_object svc bucket key ml mc with
    | Except.ok res =>
        ⟨res :: tail.results,
         res.labels.map (mkRow res.image) ++ tail.csvRows,
         Event.call key :: Event.sleep100 :: tail.trace⟩
    | Except.error _ =>
        ⟨tail.results, tail.csvRows, Event.call key :: tail.trace⟩

/-- Model of bulk_detect_and_save (src/app.py lines 99-128): makedirs, CSV header,
the per-key loop, then the JSON dump.  The function is total: no input
makes it exit; an all-failure run still writes both files, empty. -/
def bulk_detect_and_save (svc : DetectRequest → Except ClientError RekogResponse)
    (bucket : String) (keys : List String) (ml : Nat) (mc : ℚ) : BulkOutput :=
  let body := bulkGo svc bucket ml mc keys
  ⟨body.results, body.csvRows,
   Event.mkdirOut :: Event.csvHeader :: (body.trace ++ [Event.jsonWrite])⟩

/-- Events relevant to pacing: detect calls and sleeps. -/
def isPace : Event → Bool
  | Event.call _ => true
  | Event.sleep100 => true
  | _ => false

/-- The call/sleep subsequence of a trace. -/
def pace (t : List Event) : List Event := t.filter isPace

/-- Helper for callsSeparated: the flag records whether a sleep (or the
start of the trace) stands between the previous call and this point. -/
def callsSeparatedAux : Bool → List Event → Bool
  | _, [] => true
  | _, Event.sleep100 :: rest => callsSeparatedAux true rest
  | ok, Event.call _ :: rest => ok && callsSeparatedAux false rest
  | ok, _ :: rest => callsSeparatedAux ok rest

/-- The formalization of "a delay is inserted between every pair of
successive detector calls": every call except the first is preceded by
at least one sleep since the previous call. -/
def callsSeparated (t : List Event) : Bool := callsSeparatedAux true t

/-- Concat-map over a list, used to state flattening invariants. -/
def concatMap {α β : Type} (f : α → List β) : List α → List β
  | [] => []
  | a :: as => f a ++ concatMap f as

/-- The result the per-key loop would record for a key, totalized: the
normalized response on success, a placeholder (never used, the loop
filters failures out) on failure, sharing the image URI. -/
def resultOf (svc : DetectRequest → Except ClientError RekogResponse)
    (bucket : String) (ml : Nat) (mc : ℚ) (key : String) : LabelResult :=
  match svc ⟨bucket, key, ml, mc⟩ with
  | Except.ok resp => mkLabelResult bucket key resp
  | Except.error _ => ⟨s3uri bucket key, []⟩

/-- Concatenation of a list of strings, head first. -/
def joinStr : List String → String
  | [] => ""
  | a :: as => a ++ joinStr as

theorem intercalate_go_spec (s : String) : ∀ (as : List String) (acc : String),
    String.intercalate.go acc s as = acc ++ joinStr (as.map (fun a => s ++ a))
  | [], acc => by simp [String.intercalate.go, joinStr, String.append_empty]
  | a :: as, acc => by
    rw [String.intercalate.go, intercalate_go_spec s as]
    simp [joinStr, String.append_assoc]

theorem intercalate_cons (s p : String) (ps : List String) :
    String.intercalate s (p :: ps) = p ++ joinStr (ps.map (fun q => s ++ q)) := by
  rw [String.intercalate, intercalate_go_spec]

theorem string_append_cancel_left {a b c : String} (h : a ++ b = a ++ c) : b = c := by
  have hd := congrArg String.data h
  simp only [String.data_append] at hd
  exact String.ext (List.append_cancel_left hd)

theorem s3uri_inj {bucket k1 k2 : String} (h : s3uri bucket k1 = s3uri bucket k2) :
    k1 = k2 := by
  have h2 : ("s3://" ++ bucket ++ "/") ++ k1 = ("s3://" ++ bucket ++ "/") ++ k2 := by
    simpa [s3uri, String.append_assoc] using h
  exact string_append_cancel_left h2

theorem mem_concatMap {α β : Type} (f : α → List β) (b : β) : ∀ (l : List α),
    (b ∈ concatMap f l) ↔ ∃ a ∈ l, b ∈ f a
  | [] => by simp [concatMap]
  | a :: as => by
    simp [concatMap, List.mem_append, mem_concatMap f b as]

theorem length_concatMap {α β : Type} (f : α → List β) : ∀ (l : List α),
    (concatMap f l).length = (l.map (fun a => (f a).length)).sum
  | [] => rfl
  | a :: as => by
    simp [concatMap, length_concatMap f as]

theorem resultOf_image (svc : DetectRequest → Except ClientError RekogResponse)
    (bucket : String) (ml : Nat) (mc : ℚ) (key : String) :
    (resultOf svc bucket ml mc key).image = s3uri bucket key := by
  unfold resultOf
  cases svc ⟨bucket, key, ml, mc⟩ with
  | ok resp => rfl
  | error e => rfl

theorem bulkGo_results (svc : DetectRequest → Except ClientError RekogResponse)
    (bucket : String) (ml : Nat) (mc : ℚ) : ∀ (keys : List String),
    (bulkGo svc bucket ml mc keys).results
      = (keys.filter (succeeded svc bucket ml mc)).map (resultOf svc bucket ml mc)
  | [] => rfl
  | key :: rest => by
    have ih := bulkGo_results svc bucket ml mc rest
    cases h : svc ⟨bucket, key, ml, mc⟩ with
    | ok resp =>
      simp [bulkGo, detect_labels_for_s3_object, h, succeeded, resultOf, ih,
        List.filter_cons]
    | error e =>
      simp [bulkGo, detect_labels_for_s3_object, h, succeeded, resultOf, ih,
        List.filter_cons]

theorem bulkGo_rows (svc : DetectRequest → Except ClientError RekogResponse)
    (bucket : String) (ml : Nat) (mc : ℚ) : ∀ (keys : List String),
    (bulkGo svc bucket ml mc keys).csvRows
      = concatMap (fun r => r.labels.map (mkRow r.image))
          (bulkGo svc bucket ml mc keys).results
  | [] => rfl
  | key :: rest => by
    have ih := bulkGo_rows svc bucket ml mc rest
    cases h : svc ⟨bucket, key, ml, mc⟩ with
    | ok resp =>
      simp [bulkGo, detect_labels_for_s3_object, h, concatMap, ih]
    | error e =>
      simp [bulkGo, detect_labels_for_s3_object, h, concatMap, ih]

theorem bulkGo_trace (svc : DetectRequest → Except ClientError RekogResponse)
    (bucket : String) (ml : Nat) (mc : ℚ) : ∀ (keys : List String),
    (bulkGo svc bucket ml mc keys).trace
      = concatMap (fun k => Event.call k
          :: (if succeeded svc bucket ml mc k then [Event.sleep100] else [])) keys
  | [] => rfl
  | key :: rest => by
    have ih := bulkGo_trace svc bucket ml mc rest
    cases h : svc ⟨bucket, key, ml, mc⟩ with
    | ok resp =>
      simp [bulkGo, detect_labels_for_s3_object, h, succeeded, concatMap, ih]
    | error e =>
      simp [bulkGo, detect_labels_for_s3_object, h, succeeded, concatMap, ih]

theorem pace_keyTrace (svc : DetectRequest → Except ClientError RekogResponse)
    (bucket : String) (ml : Nat) (mc : ℚ) : ∀ (keys : List String),
    (concatMap (fun k => Event.call k
        :: (if succeeded svc bucket ml mc k then [Event.sleep100] else [])) keys).filter isPace
      = concatMap (fun k => Event.call k
          :: (if succeeded svc bucket ml mc k then [Event.sleep100] else [])) keys
  | [] => rfl
  | key :: rest => by
    have ih := pace_keyTrace svc bucket ml mc rest
    cases h : succeeded svc bucket ml mc key with
    | true => simp [concatMap, List.filter_append, h, isPace, ih]
    | false => simp [concatMap, List.filter_append, h, isPace, ih]

/-- A concrete labeling service used at concrete inputs below: it fails
with a ClientError on the key a.jpg and answers every other request with
an empty label list. -/
def svcFailA (r : DetectRequest) : Except ClientError RekogResponse :=
  if r.key = "a.jpg" then Except.error ⟨"ThrottlingException"⟩ else Except.ok ⟨[]⟩

/-- Claim C1, counterexample: the claim says the run proceeds as success
exactly on the error "already exists and owned by caller"
(BucketAlreadyOwnedByYou), every other code being fatal; but on the
distinct conflict code BucketAlreadyExists the source also proceeds. -/
theorem C1_counterexample :
    ensure_bucket (CreateBucketOutcome.clientError "BucketAlreadyExists") = true ∧
    "BucketAlreadyExists" ≠ "BucketAlreadyOwnedByYou" := by
  constructor
  · rfl
  · decide

/-- Claim C1, amended: when create_bucket fails, the run proceeds as
success exactly when the reported error code is BucketAlreadyOwnedByYou
or BucketAlreadyExists; every other code is fatal (sys.exit(1)). -/
theorem C1_bucket_conflict_handling :
    ensure_bucket CreateBucketOutcome.success = true ∧
    ∀ code : String,
      ensure_bucket (CreateBucketOutcome.clientError code) = true ↔
        (code = "BucketAlreadyOwnedByYou" ∨ code = "BucketAlreadyExists") := by
  refine ⟨rfl, fun code => ?_⟩
  simp [ensure_bucket]

/-- Claim C2, counterexample: with a service that fails on the first of
two keys, the trace holds two detect calls with no sleep between them —
the 100ms delay is skipped when the prior call failed, because the
time.sleep sits inside the try block after the success path. -/
theorem C2_counterexample :
    callsSeparated (bulk_detect_and_save svcFailA "bkt" ["a.jpg", "b.jpg"] 10 70).trace
      = false ∧
    pace (bulk_detect_and_save svcFailA "bkt" ["a.jpg", "b.jpg"] 10 70).trace
      = [Event.call "a.jpg", Event.call "b.jpg", Event.sleep100] := by
  constructor
  · rfl
  · rfl

/-- Claim C2, amended: the fixed 100ms delay follows each successful
detection call (including the last); after a failed call no delay runs,
so successive calls are separated by the delay exactly when the earlier
call succeeded. -/
theorem C2_delay_only_after_success
    (svc : DetectRequest → Except ClientError RekogResponse)
    (bucket : String) (ml : Nat) (mc : ℚ) (keys : List String) :
    pace (bulk_detect_and_save svc bucket keys ml mc).trace
      = concatMap (fun k => Event.call k
          :: (if succeeded svc bucket ml mc k then [Event.sleep100] else [])) keys := by
  simp only [bulk_detect_and_save, pace, List.filter, List.filter_append, isPace]
  rw [bulkGo_trace]
  simpa [isPace] using pace_keyTrace svc bucket ml mc keys

/-- Claim C5, counterexample: at the scenario input a.jpg, b.png, c.txt
the uploader uploads and reports 2 files, but its Python return value is
None (the function has no return statement), not the count 2 that the
claim says it returns. -/
theorem C5_counterexample :
    (upload_folder_to_s3 ["a.jpg", "b.png", "c.txt"] "bkt" "images/").uploaded = 2 ∧
    (upload_folder_to_s3 ["a.jpg", "b.png", "c.txt"] "bkt" "images/").retval ≠ some 2 := by
  constructor
  · rfl
  · decide

/-- Claim C5, amended: the uploader reports via its final log message
the count of files uploaded (its Python return value is None), and
terminates fatally exactly when zero files matched; for a source
directory holding a.jpg, b.png, c.txt it uploads 2 files, skips c.txt,
and reports count=2. -/
theorem C5_upload_count_and_fatal (files : List String) (bucket pfx : String) :
    (upload_folder_to_s3 files bucket pfx).uploaded
      = (files.filter (fun rel => IMAGE_EXTS.contains (extLower (basename rel)))).length ∧
    ((upload_folder_to_s3 files bucket pfx).fatal = true ↔
        (upload_folder_to_s3 files bucket pfx).uploaded = 0) ∧
    (upload_folder_to_s3 files bucket pfx).retval = none ∧
    (upload_folder_to_s3 ["a.jpg", "b.png", "c.txt"] "bkt" "images/").uploaded = 2 ∧
    (upload_folder_to_s3 ["a.jpg", "b.png", "c.txt"] "bkt" "images/").fatal = false := by
  refine ⟨?_, ?_, rfl, rfl, rfl⟩
  · simp [upload_folder_to_s3]
  · simp [upload_folder_to_s3]

/-- Claim C6, counterexample: for a prefix not ending in a slash the
stored key is not the concatenation prefix + relative path: with prefix
img and file a.jpg the source stores img/a.jpg (os.path.join inserts a
separator), not imga.jpg. -/
theorem C6_counterexample :
    (upload_folder_to_s3 ["a.jpg"] "bkt" "img").uploadedKeys = ["img/a.jpg"] ∧
    "img/a.jpg" ≠ "img" ++ "a.jpg" := by
  constructor
  · decide
  · decide

/-- Claim C6, amended: a file under the source tree is uploaded iff its
lowercase extension is in {.jpg, .jpeg, .png}, and each matching file is
stored under os.path.join(prefix, relative path) with backslashes
normalized to forward slashes — which equals prefix + relative path when
the prefix is empty or ends in a slash, and otherwise inserts a slash
between them. -/
theorem C6_upload_filter_and_keys (files : List String) (bucket pfx : String) :
    (∀ rel : String,
       rel ∈ (upload_folder_to_s3 files bucket pfx).uploadedFiles ↔
         (rel ∈ files ∧ IMAGE_EXTS.contains (extLower (basename rel)) = true)) ∧
    (upload_folder_to_s3 files bucket pfx).uploadedKeys
      = (upload_folder_to_s3 files bucket pfx).uploadedFiles.map
          (fun rel => replaceBackslash (posixJoin pfx rel)) ∧
    (upload_folder_to_s3 ["a.JPG", "sub/b.png", "c.txt"] "bkt" "images/").uploadedKeys
      = ["images/a.JPG", "images/sub/b.png"] ∧
    (upload_folder_to_s3 ["sub\\a.jpg"] "bkt" "images/").uploadedKeys
      = ["images/sub/a.jpg"] := by
  refine ⟨fun rel => ?_, rfl, by decide, by decide⟩
  simp [upload_folder_to_s3, List.mem_filter]

/-- Claim C3 (confirmed): when the detector fails for a key K of the
sequence, no LabelResult for K reaches the JSON results or any CSV row,
and the successful keys appear, in original order, as the whole output. -/
theorem C3_failed_key_absent
    (svc : DetectRequest → Except ClientError RekogResponse)
    (bucket : String) (ml : Nat) (mc : ℚ) (keys : List String) (K : String)
    (hmem : K ∈ keys) (hfail : succeeded svc bucket ml mc K = false) :
    (∀ r ∈ (bulk_detect_and_save svc bucket keys ml mc).results,
        r.image ≠ s3uri bucket K) ∧
    (∀ row ∈ (bulk_detect_and_save svc bucket keys ml mc).csvRows,
        row.image ≠ s3uri bucket K) ∧
    (bulk_detect_and_save svc bucket keys ml mc).results
      = (keys.filter (succeeded svc bucket ml mc)).map (resultOf svc bucket ml mc) := by
  have hres : (bulk_detect_and_save svc bucket keys ml mc).results
      = (keys.filter (succeeded svc bucket ml mc)).map (resultOf svc bucket ml mc) := by
    simpa [bulk_detect_and_save] using bulkGo_results svc bucket ml mc keys
  have hjson : ∀ r ∈ (bulk_detect_and_save svc bucket keys ml mc).results,
      r.image ≠ s3uri bucket K := by
    intro r hr heq
    rw [hres] at hr
    obtain ⟨k, hk, rfl⟩ := List.mem_map.1 hr
    obtain ⟨hkmem, hksucc⟩ := List.mem_filter.1 hk
    rw [resultOf_image] at heq
    cases s3uri_inj heq
    rw [hfail] at hksucc
    exact Bool.false_ne_true hksucc
  have hrows : (bulk_detect_and_save svc bucket keys ml mc).csvRows
      = concatMap (fun r => r.labels.map (mkRow r.image))
          (bulk_detect_and_save svc bucket keys ml mc).results := by
    simpa [bulk_detect_and_save] using bulkGo_rows svc bucket ml mc keys
  refine ⟨hjson, ?_, hres⟩
  intro row hrow
  rw [hrows, mem_concatMap] at hrow
  obtain ⟨r, hr, hrowmem⟩ := hrow
  obtain ⟨lab, _, rfl⟩ := List.mem_map.1 hrowmem
  exact hjson r hr

/-- Witness for C3 at the concrete run where the service fails for the
first of two keys. -/
theorem C3_witness :
    (∀ r ∈ (bulk_detect_and_save svcFailA "bkt" ["a.jpg", "b.jpg"] 10 70).results,
        r.image ≠ s3uri "bkt" "a.jpg") ∧
    (∀ row ∈ (bulk_detect_and_save svcFailA "bkt" ["a.jpg", "b.jpg"] 10 70).csvRows,
        row.image ≠ s3uri "bkt" "a.jpg") ∧
    (bulk_detect_and_save svcFailA "bkt" ["a.jpg", "b.jpg"] 10 70).results
      = ((["a.jpg", "b.jpg"].filter (succeeded svcFailA "bkt" 10 70)).map
          (resultOf svcFailA "bkt" 10 70)) :=
  C3_failed_key_absent svcFailA "bkt" 10 70 ["a.jpg", "b.jpg"] "a.jpg"
    (by decide) (by decide)

/-- Claim C4 (confirmed): the CSV data rows are exactly the flattening
of the JSON results, one row per (image, label) pair: the row count is
the sum of the per-result label counts, every row arises from exactly
the label list of a JSON entry whose image field it carries, and every
label of every JSON entry has its row. -/
theorem C4_csv_json_consistency
    (svc : DetectRequest → Except ClientError RekogResponse)
    (bucket : String) (ml : Nat) (mc : ℚ) (keys : List String) :
    (bulk_detect_and_save svc bucket keys ml mc).csvRows
      = concatMap (fun r => r.labels.map (mkRow r.image))
          (bulk_detect_and_save svc bucket keys ml mc).results ∧
    (bulk_detect_and_save svc bucket keys ml mc).csvRows.length
      = ((bulk_detect_and_save svc bucket keys ml mc).results.map
          (fun r => r.labels.length)).sum ∧
    (∀ row ∈ (bulk_detect_and_save svc bucket keys ml mc).csvRows,
       ∃ r ∈ (bulk_detect_and_save svc bucket keys ml mc).results,
         ∃ lab ∈ r.labels, row = mkRow r.image lab ∧ row.image = r.image) ∧
    (∀ r ∈ (bulk_detect_and_save svc bucket keys ml mc).results,
       ∀ lab ∈ r.labels,
         mkRow r.image lab ∈ (bulk_detect_and_save svc bucket keys ml mc).csvRows) := by
  have hrows : (bulk_detect_and_save svc bucket keys ml mc).csvRows
      = concatMap (fun r => r.labels.map (mkRow r.image))
          (bulk_detect_and_save svc bucket keys ml mc).results := by
    simpa [bulk_detect_and_save] using bulkGo_rows svc bucket ml mc keys
  refine ⟨hrows, ?_, ?_, ?_⟩
  · rw [hrows, length_concatMap]
    simp
  · intro row hrow
    rw [hrows, mem_concatMap] at hrow
    obtain ⟨r, hr, hrowmem⟩ := hrow
    obtain ⟨lab, hlab, rfl⟩ := List.mem_map.1 hrowmem
    exact ⟨r, hr, lab, hlab, rfl, rfl⟩
  · intro r hr lab hlab
    rw [hrows, mem_concatMap]
    exact ⟨r, hr, List.mem_map_of_mem _ hlab⟩

/-- Claim C7 (confirmed): on a successful service response the detector
returns a LabelResult carrying the s3 URI, one label per response label
in order, with the name passed through verbatim, the confidence rounded
to two decimal places, and the parent names flattened in given order. -/
theorem C7_normalization
    (svc : DetectRequest → Except ClientError RekogResponse)
    (bucket key : String) (ml : Nat) (mc : ℚ) (resp : RekogResponse)
    (h : svc ⟨bucket, key, ml, mc⟩ = Except.ok resp) :
    detect_labels_for_s3_object svc bucket key ml mc
      = Except.ok (mkLabelResult bucket key resp) ∧
    (mkLabelResult bucket key resp).image = s3uri bucket key ∧
    (mkLabelResult bucket key resp).labels.length = resp.Labels.length ∧
    ∀ i : Nat,
      ((mkLabelResult bucket key resp).labels[i]?).map Label.name
          = (resp.Labels[i]?).map RawLabel.Name ∧
      ((mkLabelResult bucket key resp).labels[i]?).map Label.confidence
          = (resp.Labels[i]?).map (fun lab => round2 lab.Confidence) ∧
      ((mkLabelResult bucket key resp).labels[i]?).map Label.parents
          = (resp.Labels[i]?).map (fun lab => lab.Parents.map RawParent.Name) := by
  refine ⟨by simp [detect_labels_for_s3_object, h], rfl, by simp [mkLabelResult], ?_⟩
  intro i
  cases hI : resp.Labels[i]? with
  | none => refine ⟨?_, ?_, ?_⟩ <;> simp [mkLabelResult, List.getElem?_map, hI]
  | some lab => refine ⟨?_, ?_, ?_⟩ <;> simp [mkLabelResult, List.getElem?_map, hI]

/-- A concrete response (one label Cat at confidence 93.426 with parent
Animal) and a service answering every request with it, for witnesses. -/
def respCat : RekogResponse := ⟨[⟨"Cat", 93426 / 1000, [⟨"Animal"⟩]⟩]⟩

/-- Service returning respCat on every request. -/
def svcCat : DetectRequest → Except ClientError RekogResponse :=
  fun _ => Except.ok respCat

/-- Witness for C7: on the concrete response the detector yields the
Cat label with confidence rounded to 93.43 and parents [Animal]. -/
theorem C7_witness :
    detect_labels_for_s3_object svcCat "bkt" "images/a.jpg" 10 70
      = Except.ok (mkLabelResult "bkt" "images/a.jpg" respCat) ∧
    mkLabelResult "bkt" "images/a.jpg" respCat
      = ⟨"s3://bkt/images/a.jpg", [⟨"Cat", 9343 / 100, ["Animal"]⟩]⟩ := by
  refine ⟨(C7_normalization svcCat "bkt" "images/a.jpg" 10 70 respCat rfl).1, ?_⟩
  have hc : round2 (93426 / 1000 : ℚ) = 9343 / 100 := by
    have h1 : (100 * (93426 / 1000 : ℚ)) = 46713 / 5 := by norm_num
    have h2 : ⌊(46713 / 5 : ℚ)⌋ = 9342 := by norm_num
    rw [round2, roundHalfEven, h1, h2]
    norm_num
  simp only [mkLabelResult, respCat, List.map_cons, List.map_nil, hc]
  rfl

/-- Claim C8 (confirmed): even when every detection call fails the batch
runner still creates the output directory, the CSV (header) and the JSON
file, holding zero records, and this is no error (the function is total);
the lister and the uploader by contrast exit fatally on empty results. -/
theorem C8_all_failure_outputs
    (svc : DetectRequest → Except ClientError RekogResponse)
    (bucket : String) (ml : Nat) (mc : ℚ) (keys : List String)
    (hall : ∀ k ∈ keys, succeeded svc bucket ml mc k = false)
    (pages : List (List String))
    (hpages : (pages.flatten).filter (fun key => IMAGE_EXTS.contains (extLower key)) = [])
    (files : List String)
    (hfiles : files.filter
        (fun rel => IMAGE_EXTS.contains (extLower (basename rel))) = []) :
    (bulk_detect_and_save svc bucket keys ml mc).results = [] ∧
    (bulk_detect_and_save svc bucket keys ml mc).csvRows = [] ∧
    Event.mkdirOut ∈ (bulk_detect_and_save svc bucket keys ml mc).trace ∧
    Event.csvHeader ∈ (bulk_detect_and_save svc bucket keys ml mc).trace ∧
    Event.jsonWrite ∈ (bulk_detect_and_save svc bucket keys ml mc).trace ∧
    list_s3_images pages = Except.error 1 ∧
    (upload_folder_to_s3 files bucket "images/").fatal = true := by
  have hfilter : keys.filter (succeeded svc bucket ml mc) = [] := by
    rw [List.filter_eq_nil_iff]
    intro k hk
    simp [hall k hk]
  have hres : (bulk_detect_and_save svc bucket keys ml mc).results = [] := by
    have := bulkGo_results svc bucket ml mc keys
    simp [bulk_detect_and_save, this, hfilter]
  have hrows : (bulk_detect_and_save svc bucket keys ml mc).csvRows = [] := by
    have := bulkGo_rows svc bucket ml mc keys
    simp only [bulk_detect_and_save] at hres ⊢
    rw [this, hres]
    rfl
  refine ⟨hres, hrows, ?_, ?_, ?_, ?_, ?_⟩
  · simp [bulk_detect_and_save]
  · simp [bulk_detect_and_save]
  · simp [bulk_detect_and_save]
  · simp only [list_s3_images, hpages]
    rfl
  · simp only [upload_folder_to_s3, hfiles]
    rfl

/-- Witness for C8: one all-failing key, a page listing holding only a
text file, and a source folder holding only a text file. -/
theorem C8_witness :
    (bulk_detect_and_save svcFailA "bkt" ["a.jpg"] 10 70).results = [] ∧
    (bulk_detect_and_save svcFailA "bkt" ["a.jpg"] 10 70).csvRows = [] ∧
    Event.mkdirOut ∈ (bulk_detect_and_save svcFailA "bkt" ["a.jpg"] 10 70).trace ∧
    Event.csvHeader ∈ (bulk_detect_and_save svcFailA "bkt" ["a.jpg"] 10 70).trace ∧
    Event.jsonWrite ∈ (bulk_detect_and_save svcFailA "bkt" ["a.jpg"] 10 70).trace ∧
    list_s3_images [["images/x.txt"], []] = Except.error 1 ∧
    (upload_folder_to_s3 ["c.txt"] "bkt" "images/").fatal = true :=
  C8_all_failure_outputs svcFailA "bkt" 10 70 ["a.jpg"] (by decide)
    [["images/x.txt"], []] (by decide) ["c.txt"] (by decide)

/-- Claim C9 (confirmed): a key whose detection succeeds with zero
labels still contributes a JSON entry with an empty label list, and
contributes no CSV row at all. -/
theorem C9_zero_labels_entry
    (svc : DetectRequest → Except ClientError RekogResponse)
    (bucket : String) (ml : Nat) (mc : ℚ) (keys : List String) (K : String)
    (hmem : K ∈ keys) (h : svc ⟨bucket, K, ml, mc⟩ = Except.ok ⟨[]⟩) :
    (⟨s3uri bucket K, []⟩ : LabelResult)
        ∈ (bulk_detect_and_save svc bucket keys ml mc).results ∧
    ∀ row ∈ (bulk_detect_and_save svc bucket keys ml mc).csvRows,
      row.image ≠ s3uri bucket K := by
  have hsucc : succeeded svc bucket ml mc K = true := by
    simp [succeeded, h]
  have hresK : resultOf svc bucket ml mc K = ⟨s3uri bucket K, []⟩ := by
    simp [resultOf, h, mkLabelResult]
  have hres : (bulk_detect_and_save svc bucket keys ml mc).results
      = (keys.filter (succeeded svc bucket ml mc)).map (resultOf svc bucket ml mc) := by
    simpa [bulk_detect_and_save] using bulkGo_results svc bucket ml mc keys
  have hrows : (bulk_detect_and_save svc bucket keys ml mc).csvRows
      = concatMap (fun r => r.labels.map (mkRow r.image))
          (bulk_detect_and_save svc bucket keys ml mc).results := by
    simpa [bulk_detect_and_save] using bulkGo_rows svc bucket ml mc keys
  constructor
  · rw [hres]
    refine List.mem_map.2 ⟨K, List.mem_filter.2 ⟨hmem, hsucc⟩, hresK⟩
  · intro row hrow heq
    rw [hrows, mem_concatMap] at hrow
    obtain ⟨r, hr, hrowmem⟩ := hrow
    obtain ⟨lab, hlab, rfl⟩ := List.mem_map.1 hrowmem
    rw [hres] at hr
    obtain ⟨k, hk, rfl⟩ := List.mem_map.1 hr
    have himg : (resultOf svc bucket ml mc k).image = s3uri bucket k :=
      resultOf_image svc bucket ml mc k
    rw [himg] at heq
    cases s3uri_inj heq
    rw [hresK] at hlab
    exact (List.not_mem_nil lab) hlab

/-- Witness for C9: under svcFailA the key b.jpg succeeds with zero
labels; its entry appears with empty labels and no row carries its URI. -/
theorem C9_witness :
    (⟨s3uri "bkt" "b.jpg", []⟩ : LabelResult)
        ∈ (bulk_detect_and_save svcFailA "bkt" ["a.jpg", "b.jpg"] 10 70).results ∧
    ∀ row ∈ (bulk_detect_and_save svcFailA "bkt" ["a.jpg", "b.jpg"] 10 70).csvRows,
      row.image ≠ s3uri "bkt" "b.jpg" :=
  C9_zero_labels_entry svcFailA "bkt" 10 70 ["a.jpg", "b.jpg"] "b.jpg"
    (by decide) (by rfl)

/-- Claim C10 (confirmed): the parents field of a CSV row is the parent
names joined with ";": the empty parent list yields the empty string,
and a nonempty list yields the head followed by one ";"-prefixed block
per remaining name, in order — no trailing separator. -/
theorem C10_parents_field (image : String) (lab : Label) (p : String)
    (ps : List String) :
    (mkRow image lab).parents = String.intercalate ";" lab.parents ∧
    String.intercalate ";" ([] : List String) = "" ∧
    String.intercalate ";" (p :: ps) = p ++ joinStr (ps.map (fun q => ";" ++ q)) :=
  ⟨rfl, rfl, intercalate_cons ";" p ps⟩

end RekogLabeler
